import Mathlib

/-!
Shallow embedding of the vocabin-backend learning-progress engine:
the `UserWordProgress` mongoose model (recordAttempt / resetProgress /
markAsMastered and its helper instance methods) and the `WrongWords`
model (addError / addReview / checkResolutionStatus, the urgency
virtuals and the `findByUrgency` aggregation).

JavaScript numbers are modelled as exact rationals (`ℚ`) where the code
does arithmetic on them, `ℕ`/`ℤ` where they only hold integers; dates
are modelled as integer millisecond timestamps, with the current time
(`Date.now()` / `new Date()`) passed in explicitly.
-/

/-- JavaScript `Math.round`: round half toward positive infinity. -/
def jsRound (q : ℚ) : ℤ := ⌊q + 1/2⌋

/-- `spaced_repetition` subdocument of `UserWordProgress`. -/
structure SpacedRepetition where
  interval : ℤ
  ease_factor : ℚ
  repetition : ℕ
  deriving DecidableEq, Repr

/-- One entry of `learning_history`. -/
structure LearnEntry where
  attempt_date : ℤ
  was_correct : Bool
  response_time : ℚ
  difficulty_after : ℕ
  deriving DecidableEq, Repr

/-- `performance_metrics` subdocument of `UserWordProgress`. -/
structure PerfMetrics where
  average_response_time : ℚ
  accuracy_rate : ℚ
  consecutive_correct : ℕ
  consecutive_wrong : ℕ
  last_streak : ℕ
  deriving DecidableEq, Repr

/-- The mutable state of one `UserWordProgress` document (identity
fields `user_id`/`dictionary_id`/`word`/`word_index`, which no claim
touches, are omitted). -/
structure UserWordProgress where
  correct_attempts : ℕ
  wrong_attempts : ℕ
  mastery_level : ℕ
  last_reviewed : ℤ
  next_review : ℤ
  is_mastered : Bool
  difficulty_rating : ℕ
  spaced_repetition : SpacedRepetition
  learning_history : List LearnEntry
  performance_metrics : PerfMetrics
  deriving DecidableEq, Repr

/-- Schema defaults: the zero state a fresh document is created with. -/
def freshProgress : UserWordProgress :=
  { correct_attempts := 0
    wrong_attempts := 0
    mastery_level := 0
    last_reviewed := 0
    next_review := 0
    is_mastered := false
    difficulty_rating := 3
    spaced_repetition := { interval := 1, ease_factor := 5/2, repetition := 0 }
    learning_history := []
    performance_metrics :=
      { average_response_time := 0, accuracy_rate := 0,
        consecutive_correct := 0, consecutive_wrong := 0, last_streak := 0 } }

/-- JavaScript truthiness of the optional `userDifficulty` argument:
`null`/absent and `0` are falsy. -/
def udTruthy : Option ℕ → Option ℕ
  | none => none
  | some d => if d = 0 then none else some d

/-- `total_attempts` virtual. -/
def totalAttempts (s : UserWordProgress) : ℕ :=
  s.correct_attempts + s.wrong_attempts

/-- Instance method `updatePerformanceMetrics`. -/
def updatePerformanceMetrics (s : UserWordProgress) : UserWordProgress :=
  let total := totalAttempts s
  let pm := s.performance_metrics
  let acc : ℚ :=
    if 0 < total then ((s.correct_attempts : ℚ) / (total : ℚ)) * 100
    else pm.accuracy_rate
  let avg : ℚ :=
    if 0 < s.learning_history.length then
      (s.learning_history.map (fun e => e.response_time)).sum / (s.learning_history.length : ℚ)
    else pm.average_response_time
  { s with performance_metrics :=
    { pm with accuracy_rate := acc, average_response_time := avg,
              last_streak := max pm.consecutive_correct pm.consecutive_wrong } }

/-- Instance method `updateSpacedRepetition`. -/
def updateSpacedRepetition (s : UserWordProgress) (isCorrect : Bool)
    (userDifficulty : Option ℕ) (now : ℤ) : UserWordProgress :=
  let sr := s.spaced_repetition
  let sr1 : SpacedRepetition :=
    if isCorrect then
      { interval :=
          if sr.repetition = 0 then 1
          else if sr.repetition = 1 then 6
          else jsRound ((sr.interval : ℚ) * sr.ease_factor),
        ease_factor := sr.ease_factor,
        repetition := sr.repetition + 1 }
    else
      { interval := 1, ease_factor := sr.ease_factor, repetition := 0 }
  let sr2 : SpacedRepetition :=
    match udTruthy userDifficulty with
    | some d =>
        { sr1 with ease_factor := max (13/10) (sr1.ease_factor + ((3 : ℚ) - (d : ℚ)) * (3/20)) }
    | none => sr1
  { s with spaced_repetition := sr2,
           next_review := now + sr2.interval * 86400000 }

/-- Instance method `updateMasteryLevel`. -/
def updateMasteryLevel (s : UserWordProgress) : UserWordProgress :=
  let accuracy := s.performance_metrics.accuracy_rate
  let cc := s.performance_metrics.consecutive_correct
  let total := totalAttempts s
  let lvl0 : ℕ :=
    if 5 ≤ total ∧ 90 ≤ accuracy ∧ 3 ≤ cc then 5
    else if 4 ≤ total ∧ 80 ≤ accuracy ∧ 2 ≤ cc then 4
    else if 3 ≤ total ∧ 70 ≤ accuracy then 3
    else if 2 ≤ total ∧ 50 ≤ accuracy then 2
    else if 1 ≤ total then 1
    else s.mastery_level
  let mast0 : Bool :=
    if 5 ≤ total ∧ 90 ≤ accuracy ∧ 3 ≤ cc then true else s.is_mastered
  let lvl1 : ℕ :=
    if 3 ≤ s.performance_metrics.consecutive_wrong then lvl0 - 1 else lvl0
  let mast1 : Bool :=
    if 3 ≤ s.performance_metrics.consecutive_wrong then false else mast0
  { s with mastery_level := lvl1, is_mastered := mast1 }

/-- Steps 1–2 of `recordAttempt`: update the raw counters and the
consecutive streaks, and push the new `learning_history` entry. -/
def applyRawAttempt (s : UserWordProgress) (isCorrect : Bool) (responseTime : ℚ)
    (userDifficulty : Option ℕ) (now : ℤ) : UserWordProgress :=
  let s1 : UserWordProgress :=
    if isCorrect then
      { s with correct_attempts := s.correct_attempts + 1,
               performance_metrics :=
                 { s.performance_metrics with
                     consecutive_correct := s.performance_metrics.consecutive_correct + 1,
                     consecutive_wrong := 0 } }
    else
      { s with wrong_attempts := s.wrong_attempts + 1,
               performance_metrics :=
                 { s.performance_metrics with
                     consecutive_wrong := s.performance_metrics.consecutive_wrong + 1,
                     consecutive_correct := 0 } }
  { s1 with learning_history := s1.learning_history ++
      [{ attempt_date := now, was_correct := isCorrect, response_time := responseTime,
         difficulty_after := (udTruthy userDifficulty).getD s.difficulty_rating }] }

/-- Instance method `recordAttempt` (the final `save()` is persistence,
out of the model). -/
def recordAttempt (s : UserWordProgress) (isCorrect : Bool) (responseTime : ℚ)
    (userDifficulty : Option ℕ) (now : ℤ) : UserWordProgress :=
  let s2 := applyRawAttempt s isCorrect responseTime userDifficulty now
  let s3 := updatePerformanceMetrics s2
  let s4 := updateSpacedRepetition s3 isCorrect userDifficulty now
  let s5 := updateMasteryLevel s4
  { s5 with last_reviewed := now }

/-- Instance method `resetProgress`. -/
def resetProgress (s : UserWordProgress) (now : ℤ) : UserWordProgress :=
  { s with correct_attempts := 0, wrong_attempts := 0, mastery_level := 0,
           is_mastered := false,
           spaced_repetition := { interval := 1, ease_factor := 5/2, repetition := 0 },
           next_review := now, learning_history := [],
           performance_metrics :=
             { average_response_time := 0, accuracy_rate := 0,
               consecutive_correct := 0, consecutive_wrong := 0, last_streak := 0 } }

/-- Instance method `markAsMastered`. -/
def markAsMastered (s : UserWordProgress) (now : ℤ) : UserWordProgress :=
  { s with mastery_level := 5, is_mastered := true,
           next_review := now + 30 * 86400000 }

/-- One operation of a learning-progress session: an attempt or a reset. -/
inductive ProgressOp where
  | attempt (isCorrect : Bool) (responseTime : ℚ) (userDifficulty : Option ℕ) (now : ℤ)
  | reset (now : ℤ)
  deriving Repr

/-- Apply one operation. -/
def applyOp (s : UserWordProgress) : ProgressOp → UserWordProgress
  | ProgressOp.attempt c rt ud now => recordAttempt s c rt ud now
  | ProgressOp.reset now => resetProgress s now

/-- Run a sequence of operations from a given state. -/
def runOps (s : UserWordProgress) (ops : List ProgressOp) : UserWordProgress :=
  ops.foldl applyOp s

/-! ## The `WrongWords` model -/

/-- One entry of `error_details`. -/
structure ErrorDetail where
  error_date : ℤ
  user_answer : String
  correct_answer : String
  error_type : String
  context : String
  deriving DecidableEq, Repr

/-- One entry of `review_history`. -/
structure ReviewEntry where
  review_date : ℤ
  was_successful : Bool
  review_method : String
  response_time : ℚ
  confidence_level : ℕ
  deriving DecidableEq, Repr

/-- The `learning_notes` subdocument. -/
structure LearningNotes where
  user_notes : String
  mnemonic : String
  difficulty_reason : String
  personal_example : String
  deriving DecidableEq, Repr

/-- The mutable state of one `WrongWords` document (identity fields and
`word_data` / `auto_generated_hints`, which no claim touches, omitted). -/
structure WrongWordRecord where
  error_count : ℕ
  last_wrong_date : ℤ
  first_wrong_date : ℤ
  review_priority : ℕ
  is_resolved : Bool
  resolved_date : Option ℤ
  error_details : List ErrorDetail
  review_history : List ReviewEntry
  learning_notes : LearningNotes
  deriving DecidableEq, Repr

/-- Schema defaults for a record created at time `now` on the first
wrong answer. -/
def freshWrongWord (now : ℤ) : WrongWordRecord :=
  { error_count := 1
    last_wrong_date := now
    first_wrong_date := now
    review_priority := 1
    is_resolved := false
    resolved_date := none
    error_details := []
    review_history := []
    learning_notes := { user_notes := "", mnemonic := "", difficulty_reason := "", personal_example := "" } }

/-- `days_since_last_error` virtual: `Math.floor((now − last_wrong_date) / 86400000)`. -/
def daysSinceLastError (r : WrongWordRecord) (now : ℤ) : ℤ :=
  Int.fdiv (now - r.last_wrong_date) 86400000

/-- Number of successful entries in a review history. -/
def successCount (hist : List ReviewEntry) : ℕ :=
  (hist.filter (fun rev => rev.was_successful)).length

/-- `successful_review_rate` virtual:
`Math.round((successful / total) * 100 * 100) / 100`, `0` with no reviews. -/
def successfulReviewRate (r : WrongWordRecord) : ℚ :=
  if r.review_history.length = 0 then 0
  else (jsRound (((successCount r.review_history : ℚ) / (r.review_history.length : ℚ)) * 100 * 100) : ℚ) / 100

/-- `urgency_score` virtual:
priority, error-count and recency terms minus the review rate, floored at `0`. -/
def urgencyScore (r : WrongWordRecord) (now : ℤ) : ℚ :=
  max 0 ((r.review_priority : ℚ) * 20 + (r.error_count : ℚ) * 10 +
    ((max 0 (7 - daysSinceLastError r now) : ℤ) : ℚ) * 5 - successfulReviewRate r)

/-- The unrounded review rate computed inside the `findByUrgency`
aggregation pipeline. -/
def rawReviewRate (r : WrongWordRecord) : ℚ :=
  if r.review_history.length = 0 then 0
  else ((successCount r.review_history : ℚ) / (r.review_history.length : ℚ)) * 100

/-- The `urgency_score` field computed by the `findByUrgency`
aggregation pipeline (no floor at `0`, unrounded review rate). -/
def aggUrgencyScore (r : WrongWordRecord) (now : ℤ) : ℚ :=
  ((r.review_priority : ℚ) * 20 + (r.error_count : ℚ) * 10 +
    ((max 0 (7 - daysSinceLastError r now) : ℤ) : ℚ) * 5) - rawReviewRate r

/-- Static `findByUrgency`, restricted to one user's records: keep
unresolved records, sort by the aggregation's `urgency_score`
descending, truncate to `limit`.  The Mongo `$sort` has no secondary
key; it is modelled by a stable sort. -/
def findByUrgency (records : List WrongWordRecord) (now : ℤ) (limit : ℕ) :
    List WrongWordRecord :=
  (List.insertionSort (fun a b => aggUrgencyScore b now ≤ aggUrgencyScore a now)
    (records.filter (fun r => !r.is_resolved))).take limit

/-- The `review_priority` recomputation of `addError`, as a function of
the (incremented) error count and the previous priority. -/
def addErrorPriority (count previous : ℕ) : ℕ :=
  if 5 ≤ count then 5
  else if 3 ≤ count then 4
  else if 2 ≤ count then 3
  else previous

/-- Instance method `addError`. -/
def addError (r : WrongWordRecord) (userAnswer correctAnswer errorType context : String)
    (now : ℤ) : WrongWordRecord :=
  let r2 : WrongWordRecord :=
    { r with error_count := r.error_count + 1,
             last_wrong_date := now,
             review_priority := addErrorPriority (r.error_count + 1) r.review_priority,
             error_details := r.error_details ++
               [{ error_date := now, user_answer := userAnswer,
                  correct_answer := correctAnswer, error_type := errorType,
                  context := context }] }
  if r.is_resolved then { r2 with is_resolved := false, resolved_date := none }
  else r2

/-- JavaScript `slice(-n)`: the last `n` elements (all of them when the
list is shorter). -/
def lastN (n : ℕ) (l : List α) : List α := l.drop (l.length - n)

/-- Instance method `checkResolutionStatus`. -/
def checkResolutionStatus (r : WrongWordRecord) (now : ℤ) : WrongWordRecord :=
  let recentReviews := lastN 5 r.review_history
  if 3 ≤ recentReviews.length then
    if (4 : ℚ)/5 ≤ (successCount recentReviews : ℚ) / (recentReviews.length : ℚ) then
      { r with is_resolved := true, resolved_date := some now }
    else r
  else r

/-- Instance method `addReview`. -/
def addReview (r : WrongWordRecord) (wasSuccessful : Bool) (reviewMethod : String)
    (responseTime : ℚ) (confidenceLevel : ℕ) (now : ℤ) : WrongWordRecord :=
  checkResolutionStatus
    { r with review_history := r.review_history ++
        [{ review_date := now, was_successful := wasSuccessful,
           review_method := reviewMethod, response_time := responseTime,
           confidence_level := confidenceLevel }] } now

/-- The resolution condition of `checkResolutionStatus`, as a predicate
on the (post-append) review history. -/
def resolutionReady (hist : List ReviewEntry) : Prop :=
  3 ≤ (lastN 5 hist).length ∧
    (4 : ℚ)/5 ≤ (successCount (lastN 5 hist) : ℚ) / ((lastN 5 hist).length : ℚ)

instance (hist : List ReviewEntry) : Decidable (resolutionReady hist) := by
  unfold resolutionReady; infer_instance

/-! ## Concrete runs used by several scenario claims

The fresh word answered correctly five times in a row (all with
response time `0`, no user difficulty, at time `0`) and then once
incorrectly.  Each `progAn` is the state after the `n`-th attempt. -/

/-- A correct attempt with response time 0, no difficulty, at time 0. -/
def corrOp : ProgressOp := ProgressOp.attempt true 0 none 0

/-- An incorrect attempt with response time 0, no difficulty, at time 0. -/
def wrongOp : ProgressOp := ProgressOp.attempt false 0 none 0

/-- A correct learning-history entry of the concrete runs. -/
def corrEntry : LearnEntry :=
  { attempt_date := 0, was_correct := true, response_time := 0, difficulty_after := 3 }

/-- A wrong learning-history entry of the concrete runs. -/
def wrongEntry : LearnEntry :=
  { attempt_date := 0, was_correct := false, response_time := 0, difficulty_after := 3 }

/-- State after 1 correct attempt. -/
def progA1 : UserWordProgress :=
  { correct_attempts := 1, wrong_attempts := 0, mastery_level := 1,
    last_reviewed := 0, next_review := 86400000, is_mastered := false,
    difficulty_rating := 3,
    spaced_repetition := { interval := 1, ease_factor := 5/2, repetition := 1 },
    learning_history := [corrEntry],
    performance_metrics :=
      { average_response_time := 0, accuracy_rate := 100,
        consecutive_correct := 1, consecutive_wrong := 0, last_streak := 1 } }

/-- State after 2 correct attempts. -/
def progA2 : UserWordProgress :=
  { correct_attempts := 2, wrong_attempts := 0, mastery_level := 2,
    last_reviewed := 0, next_review := 518400000, is_mastered := false,
    difficulty_rating := 3,
    spaced_repetition := { interval := 6, ease_factor := 5/2, repetition := 2 },
    learning_history := [corrEntry, corrEntry],
    performance_metrics :=
      { average_response_time := 0, accuracy_rate := 100,
        consecutive_correct := 2, consecutive_wrong := 0, last_streak := 2 } }

/-- State after 3 correct attempts. -/
def progA3 : UserWordProgress :=
  { correct_attempts := 3, wrong_attempts := 0, mastery_level := 3,
    last_reviewed := 0, next_review := 1296000000, is_mastered := false,
    difficulty_rating := 3,
    spaced_repetition := { interval := 15, ease_factor := 5/2, repetition := 3 },
    learning_history := [corrEntry, corrEntry, corrEntry],
    performance_metrics :=
      { average_response_time := 0, accuracy_rate := 100,
        consecutive_correct := 3, consecutive_wrong := 0, last_streak := 3 } }

/-- State after 4 correct attempts. -/
def progA4 : UserWordProgress :=
  { correct_attempts := 4, wrong_attempts := 0, mastery_level := 4,
    last_reviewed := 0, next_review := 3283200000, is_mastered := false,
    difficulty_rating := 3,
    spaced_repetition := { interval := 38, ease_factor := 5/2, repetition := 4 },
    learning_history := [corrEntry, corrEntry, corrEntry, corrEntry],
    performance_metrics :=
      { average_response_time := 0, accuracy_rate := 100,
        consecutive_correct := 4, consecutive_wrong := 0, last_streak := 4 } }

/-- State after 5 correct attempts: mastered at level 5. -/
def progA5 : UserWordProgress :=
  { correct_attempts := 5, wrong_attempts := 0, mastery_level := 5,
    last_reviewed := 0, next_review := 8208000000, is_mastered := true,
    difficulty_rating := 3,
    spaced_repetition := { interval := 95, ease_factor := 5/2, repetition := 5 },
    learning_history := [corrEntry, corrEntry, corrEntry, corrEntry, corrEntry],
    performance_metrics :=
      { average_response_time := 0, accuracy_rate := 100,
        consecutive_correct := 5, consecutive_wrong := 0, last_streak := 5 } }

/-- State after 5 correct attempts and then 1 wrong one: the mastery
level drops to 3 yet `is_mastered` stays `true`. -/
def progA6 : UserWordProgress :=
  { correct_attempts := 5, wrong_attempts := 1, mastery_level := 3,
    last_reviewed := 0, next_review := 86400000, is_mastered := true,
    difficulty_rating := 3,
    spaced_repetition := { interval := 1, ease_factor := 5/2, repetition := 0 },
    learning_history := [corrEntry, corrEntry, corrEntry, corrEntry, corrEntry, wrongEntry],
    performance_metrics :=
      { average_response_time := 0, accuracy_rate := 250/3,
        consecutive_correct := 0, consecutive_wrong := 1, last_streak := 1 } }

lemma stepA1 : recordAttempt freshProgress true 0 none 0 = progA1 := by
  norm_num [recordAttempt, applyRawAttempt, updatePerformanceMetrics, updateSpacedRepetition,
    updateMasteryLevel, totalAttempts, udTruthy, jsRound, freshProgress, progA1, corrEntry]

lemma stepA2 : recordAttempt progA1 true 0 none 0 = progA2 := by
  norm_num [recordAttempt, applyRawAttempt, updatePerformanceMetrics, updateSpacedRepetition,
    updateMasteryLevel, totalAttempts, udTruthy, jsRound, progA1, progA2, corrEntry]

lemma stepA3 : recordAttempt progA2 true 0 none 0 = progA3 := by
  norm_num [recordAttempt, applyRawAttempt, updatePerformanceMetrics, updateSpacedRepetition,
    updateMasteryLevel, totalAttempts, udTruthy, jsRound, progA2, progA3, corrEntry]

lemma stepA4 : recordAttempt progA3 true 0 none 0 = progA4 := by
  norm_num [recordAttempt, applyRawAttempt, updatePerformanceMetrics, updateSpacedRepetition,
    updateMasteryLevel, totalAttempts, udTruthy, jsRound, progA3, progA4, corrEntry]

lemma stepA5 : recordAttempt progA4 true 0 none 0 = progA5 := by
  norm_num [recordAttempt, applyRawAttempt, updatePerformanceMetrics, updateSpacedRepetition,
    updateMasteryLevel, totalAttempts, udTruthy, jsRound, progA4, progA5, corrEntry]

lemma stepA6 : recordAttempt progA5 false 0 none 0 = progA6 := by
  norm_num [recordAttempt, applyRawAttempt, updatePerformanceMetrics, updateSpacedRepetition,
    updateMasteryLevel, totalAttempts, udTruthy, jsRound, progA5, progA6, corrEntry, wrongEntry]

lemma runA5 : runOps freshProgress (List.replicate 5 corrOp) = progA5 := by
  simp only [List.replicate, runOps, List.foldl, applyOp, corrOp,
    stepA1, stepA2, stepA3, stepA4, stepA5]

lemma runA6 : runOps freshProgress (List.replicate 5 corrOp ++ [wrongOp]) = progA6 := by
  simp only [List.replicate, runOps, List.foldl, applyOp, corrOp, wrongOp,
    List.append_eq, List.cons_append, List.nil_append,
    stepA1, stepA2, stepA3, stepA4, stepA5, stepA6]

/-! ## Projection lemmas for the `recordAttempt` pipeline -/

@[simp] lemma uPM_correct (s : UserWordProgress) :
    (updatePerformanceMetrics s).correct_attempts = s.correct_attempts := rfl
@[simp] lemma uPM_wrong (s : UserWordProgress) :
    (updatePerformanceMetrics s).wrong_attempts = s.wrong_attempts := rfl
@[simp] lemma uPM_history (s : UserWordProgress) :
    (updatePerformanceMetrics s).learning_history = s.learning_history := rfl
@[simp] lemma uPM_sr (s : UserWordProgress) :
    (updatePerformanceMetrics s).spaced_repetition = s.spaced_repetition := rfl
@[simp] lemma uPM_mastery (s : UserWordProgress) :
    (updatePerformanceMetrics s).mastery_level = s.mastery_level := rfl
@[simp] lemma uPM_mastered (s : UserWordProgress) :
    (updatePerformanceMetrics s).is_mastered = s.is_mastered := rfl
@[simp] lemma uPM_cc (s : UserWordProgress) :
    (updatePerformanceMetrics s).performance_metrics.consecutive_correct =
      s.performance_metrics.consecutive_correct := rfl
@[simp] lemma uPM_cw (s : UserWordProgress) :
    (updatePerformanceMetrics s).performance_metrics.consecutive_wrong =
      s.performance_metrics.consecutive_wrong := rfl

@[simp] lemma uSR_correct (s : UserWordProgress) (c : Bool) (ud : Option ℕ) (now : ℤ) :
    (updateSpacedRepetition s c ud now).correct_attempts = s.correct_attempts := rfl
@[simp] lemma uSR_wrong (s : UserWordProgress) (c : Bool) (ud : Option ℕ) (now : ℤ) :
    (updateSpacedRepetition s c ud now).wrong_attempts = s.wrong_attempts := rfl
@[simp] lemma uSR_history (s : UserWordProgress) (c : Bool) (ud : Option ℕ) (now : ℤ) :
    (updateSpacedRepetition s c ud now).learning_history = s.learning_history := rfl
@[simp] lemma uSR_pm (s : UserWordProgress) (c : Bool) (ud : Option ℕ) (now : ℤ) :
    (updateSpacedRepetition s c ud now).performance_metrics = s.performance_metrics := rfl
@[simp] lemma uSR_mastery (s : UserWordProgress) (c : Bool) (ud : Option ℕ) (now : ℤ) :
    (updateSpacedRepetition s c ud now).mastery_level = s.mastery_level := rfl
@[simp] lemma uSR_mastered (s : UserWordProgress) (c : Bool) (ud : Option ℕ) (now : ℤ) :
    (updateSpacedRepetition s c ud now).is_mastered = s.is_mastered := rfl

@[simp] lemma uML_correct (s : UserWordProgress) :
    (updateMasteryLevel s).correct_attempts = s.correct_attempts := rfl
@[simp] lemma uML_wrong (s : UserWordProgress) :
    (updateMasteryLevel s).wrong_attempts = s.wrong_attempts := rfl
@[simp] lemma uML_history (s : UserWordProgress) :
    (updateMasteryLevel s).learning_history = s.learning_history := rfl
@[simp] lemma uML_sr (s : UserWordProgress) :
    (updateMasteryLevel s).spaced_repetition = s.spaced_repetition := rfl
@[simp] lemma uML_pm (s : UserWordProgress) :
    (updateMasteryLevel s).performance_metrics = s.performance_metrics := rfl

@[simp] lemma raw_correct (s : UserWordProgress) (c : Bool) (rt : ℚ) (ud : Option ℕ) (now : ℤ) :
    (applyRawAttempt s c rt ud now).correct_attempts =
      (if c then s.correct_attempts + 1 else s.correct_attempts) := by
  cases c <;> rfl
@[simp] lemma raw_wrong (s : UserWordProgress) (c : Bool) (rt : ℚ) (ud : Option ℕ) (now : ℤ) :
    (applyRawAttempt s c rt ud now).wrong_attempts =
      (if c then s.wrong_attempts else s.wrong_attempts + 1) := by
  cases c <;> rfl
@[simp] lemma raw_history (s : UserWordProgress) (c : Bool) (rt : ℚ) (ud : Option ℕ) (now : ℤ) :
    (applyRawAttempt s c rt ud now).learning_history =
      s.learning_history ++
        [{ attempt_date := now, was_correct := c, response_time := rt,
           difficulty_after := (udTruthy ud).getD s.difficulty_rating }] := by
  cases c <;> rfl
@[simp] lemma raw_sr (s : UserWordProgress) (c : Bool) (rt : ℚ) (ud : Option ℕ) (now : ℤ) :
    (applyRawAttempt s c rt ud now).spaced_repetition = s.spaced_repetition := by
  cases c <;> rfl
@[simp] lemma raw_cc (s : UserWordProgress) (c : Bool) (rt : ℚ) (ud : Option ℕ) (now : ℤ) :
    (applyRawAttempt s c rt ud now).performance_metrics.consecutive_correct =
      (if c then s.performance_metrics.consecutive_correct + 1 else 0) := by
  cases c <;> rfl
@[simp] lemma raw_cw (s : UserWordProgress) (c : Bool) (rt : ℚ) (ud : Option ℕ) (now : ℤ) :
    (applyRawAttempt s c rt ud now).performance_metrics.consecutive_wrong =
      (if c then 0 else s.performance_metrics.consecutive_wrong + 1) := by
  cases c <;> rfl

lemma recordAttempt_correct (s : UserWordProgress) (c : Bool) (rt : ℚ) (ud : Option ℕ) (now : ℤ) :
    (recordAttempt s c rt ud now).correct_attempts =
      (if c then s.correct_attempts + 1 else s.correct_attempts) := by
  simp [recordAttempt]

lemma recordAttempt_wrong (s : UserWordProgress) (c : Bool) (rt : ℚ) (ud : Option ℕ) (now : ℤ) :
    (recordAttempt s c rt ud now).wrong_attempts =
      (if c then s.wrong_attempts else s.wrong_attempts + 1) := by
  simp [recordAttempt]

lemma recordAttempt_history (s : UserWordProgress) (c : Bool) (rt : ℚ) (ud : Option ℕ) (now : ℤ) :
    (recordAttempt s c rt ud now).learning_history =
      s.learning_history ++
        [{ attempt_date := now, was_correct := c, response_time := rt,
           difficulty_after := (udTruthy ud).getD s.difficulty_rating }] := by
  simp [recordAttempt]

lemma recordAttempt_cw (s : UserWordProgress) (c : Bool) (rt : ℚ) (ud : Option ℕ) (now : ℤ) :
    (recordAttempt s c rt ud now).performance_metrics.consecutive_wrong =
      (if c then 0 else s.performance_metrics.consecutive_wrong + 1) := by
  simp [recordAttempt]

/-! ## C1: attempts/history counting invariant -/

/-- The invariant `correct_attempts + wrong_attempts = length(learning_history)`. -/
def attemptInv (s : UserWordProgress) : Prop :=
  s.correct_attempts + s.wrong_attempts = s.learning_history.length

lemma attemptInv_fresh : attemptInv freshProgress := rfl

lemma attemptInv_reset (s : UserWordProgress) (now : ℤ) :
    attemptInv (resetProgress s now) := rfl

lemma attemptInv_record (s : UserWordProgress) (h : attemptInv s)
    (c : Bool) (rt : ℚ) (ud : Option ℕ) (now : ℤ) :
    attemptInv (recordAttempt s c rt ud now) := by
  unfold attemptInv at h ⊢
  rw [recordAttempt_correct, recordAttempt_wrong, recordAttempt_history]
  cases c <;> simp <;> omega

lemma attemptInv_runOps :
    ∀ (ops : List ProgressOp) (s : UserWordProgress), attemptInv s →
      attemptInv (runOps s ops) := by
  intro ops
  induction ops with
  | nil => intro s h; exact h
  | cons op ops ih =>
    intro s h
    have h1 : attemptInv (applyOp s op) := by
      cases op with
      | attempt c rt ud now => exact attemptInv_record s h c rt ud now
      | reset now => exact attemptInv_reset s now
    simpa [runOps, List.foldl] using ih (applyOp s op) h1

/-- C1: starting from the fresh zero state, after any sequence of
`recordAttempt` and `resetProgress` calls the invariant
`correct_attempts + wrong_attempts = length(learning_history)` holds;
moreover each `recordAttempt` increments exactly one of the two
counters and appends exactly one `learning_history` entry, and
`resetProgress` re-establishes the invariant with both sides zero. -/
theorem attempts_history_invariant :
    (∀ ops : List ProgressOp, attemptInv (runOps freshProgress ops)) ∧
    (∀ (s : UserWordProgress) (c : Bool) (rt : ℚ) (ud : Option ℕ) (now : ℤ),
      (recordAttempt s c rt ud now).correct_attempts =
        (if c then s.correct_attempts + 1 else s.correct_attempts) ∧
      (recordAttempt s c rt ud now).wrong_attempts =
        (if c then s.wrong_attempts else s.wrong_attempts + 1) ∧
      (recordAttempt s c rt ud now).learning_history.length =
        s.learning_history.length + 1) ∧
    (∀ (s : UserWordProgress) (now : ℤ),
      (resetProgress s now).correct_attempts = 0 ∧
      (resetProgress s now).wrong_attempts = 0 ∧
      (resetProgress s now).learning_history = []) := by
  refine ⟨fun ops => attemptInv_runOps ops freshProgress attemptInv_fresh, ?_, ?_⟩
  · intro s c rt ud now
    refine ⟨recordAttempt_correct s c rt ud now, recordAttempt_wrong s c rt ud now, ?_⟩
    rw [recordAttempt_history]; simp
  · intro s now; exact ⟨rfl, rfl, rfl⟩

/-! ## C2: `is_mastered → mastery_level = 5` is not preserved by `recordAttempt` -/

/-- C2 counterexample: the state reached by five correct attempts
satisfies the invariant (`is_mastered = true`, `mastery_level = 5`),
but one further `recordAttempt` (a wrong answer) yields a state with
`is_mastered = true` and `mastery_level = 3`, violating it. -/
theorem mastered_level_invariant_cex :
    (runOps freshProgress (List.replicate 5 corrOp)).is_mastered = true ∧
    (runOps freshProgress (List.replicate 5 corrOp)).mastery_level = 5 ∧
    (recordAttempt (runOps freshProgress (List.replicate 5 corrOp)) false 0 none 0).is_mastered
      = true ∧
    (recordAttempt (runOps freshProgress (List.replicate 5 corrOp)) false 0 none 0).mastery_level
      = 3 := by
  rw [runA5, stepA6]
  exact ⟨rfl, rfl, rfl, rfl⟩

/-- C2 amended: of the three operations only `markAsMastered` and
`resetProgress` preserve `is_mastered → mastery_level = 5`
(unconditionally: `markAsMastered` sets level 5 and the flag,
`resetProgress` clears both); `recordAttempt` does not preserve it. -/
theorem mastered_level_invariant_amended :
    ∀ (s : UserWordProgress) (now : ℤ),
      (markAsMastered s now).mastery_level = 5 ∧
      (markAsMastered s now).is_mastered = true ∧
      (resetProgress s now).is_mastered = false ∧
      (resetProgress s now).mastery_level = 0 := by
  intro s now
  exact ⟨rfl, rfl, rfl, rfl⟩

/-! ## C3: mastery level monotonicity / decay -/

/-- C3 counterexample: after five correct attempts `mastery_level = 5`;
the next (wrong) attempt leaves `consecutive_wrong = 1 < 3` yet drops
`mastery_level` to `3`, so the level is not monotone outside the
three-consecutive-wrong decay path. -/
theorem mastery_monotonicity_cex :
    (runOps freshProgress (List.replicate 5 corrOp)).mastery_level = 5 ∧
    (recordAttempt (runOps freshProgress (List.replicate 5 corrOp))
        false 0 none 0).performance_metrics.consecutive_wrong = 1 ∧
    (recordAttempt (runOps freshProgress (List.replicate 5 corrOp))
        false 0 none 0).mastery_level = 3 := by
  rw [runA5, stepA6]
  exact ⟨rfl, rfl, rfl⟩

lemma updateMasteryLevel_decay (s : UserWordProgress)
    (hcw : 3 ≤ s.performance_metrics.consecutive_wrong)
    (hcc : s.performance_metrics.consecutive_correct = 0)
    (htot : 1 ≤ totalAttempts s) :
    (updateMasteryLevel s).is_mastered = false ∧
      (updateMasteryLevel s).mastery_level ≤ 2 := by
  unfold updateMasteryLevel
  simp only [hcc, hcw, if_pos, Nat.not_succ_le_zero, and_false, if_false]
  constructor
  · simp [if_pos hcw]
  · split_ifs with h1 h2 h3 h4
    · exact absurd h1.2.2 (by omega)
    · exact absurd h2.2.2 (by omega)
    · omega
    · omega
    · omega

/-- C3 amended: whenever a `recordAttempt` call brings
`consecutive_wrong` to 3 or more, the resulting state has
`is_mastered = false` and `mastery_level ≤ 2` (the threshold level,
capped at 3 because the consecutive-correct streak is 0, minus one);
but `mastery_level` is not monotone below the decay threshold, and with
the decay it need not strictly decrease. -/
theorem mastery_decay_amended :
    ∀ (s : UserWordProgress) (c : Bool) (rt : ℚ) (ud : Option ℕ) (now : ℤ),
      3 ≤ (recordAttempt s c rt ud now).performance_metrics.consecutive_wrong →
      (recordAttempt s c rt ud now).is_mastered = false ∧
      (recordAttempt s c rt ud now).mastery_level ≤ 2 := by
  intro s c rt ud now h
  rw [recordAttempt_cw] at h
  cases c with
  | false =>
    show (updateMasteryLevel _).is_mastered = false ∧
      (updateMasteryLevel _).mastery_level ≤ 2
    apply updateMasteryLevel_decay
    · simpa using h
    · simp
    · simp only [totalAttempts, uSR_correct, uSR_wrong, uPM_correct, uPM_wrong,
        raw_correct, raw_wrong, Bool.false_eq_true, if_false]
      omega
  | true => simp at h

/-- Witness for `mastery_decay_amended`: two wrong attempts from the
fresh state, then a third wrong attempt triggers the decay. -/
theorem mastery_decay_amended_witness :
    (recordAttempt (runOps freshProgress [wrongOp, wrongOp])
        false 0 none 0).is_mastered = false ∧
    (recordAttempt (runOps freshProgress [wrongOp, wrongOp])
        false 0 none 0).mastery_level ≤ 2 :=
  mastery_decay_amended (runOps freshProgress [wrongOp, wrongOp]) false 0 none 0
    (by norm_num [runOps, applyOp, wrongOp, List.foldl, recordAttempt_cw, recordAttempt,
      applyRawAttempt, updatePerformanceMetrics, updateSpacedRepetition, updateMasteryLevel,
      totalAttempts, udTruthy, freshProgress])

/-! ## C4: ease factor lower bound -/

lemma recordAttempt_sr_eq (s : UserWordProgress) (c : Bool) (rt : ℚ) (ud : Option ℕ) (now : ℤ) :
    (recordAttempt s c rt ud now).spaced_repetition =
      (updateSpacedRepetition (updatePerformanceMetrics (applyRawAttempt s c rt ud now))
        c ud now).spaced_repetition := rfl

lemma uSR_ease_lb (s : UserWordProgress) (c : Bool) (ud : Option ℕ) (now : ℤ)
    (h : (13 : ℚ)/10 ≤ s.spaced_repetition.ease_factor) :
    (13 : ℚ)/10 ≤ (updateSpacedRepetition s c ud now).spaced_repetition.ease_factor := by
  unfold updateSpacedRepetition
  cases hud : udTruthy ud with
  | none => cases c <;> simpa [hud] using h
  | some d => cases c <;> simp [hud]

lemma recordAttempt_ease_lb (s : UserWordProgress) (c : Bool) (rt : ℚ) (ud : Option ℕ) (now : ℤ)
    (h : (13 : ℚ)/10 ≤ s.spaced_repetition.ease_factor) :
    (13 : ℚ)/10 ≤ (recordAttempt s c rt ud now).spaced_repetition.ease_factor := by
  rw [recordAttempt_sr_eq]
  apply uSR_ease_lb
  simpa using h

lemma ease_lb_runOps :
    ∀ (ops : List ProgressOp) (s : UserWordProgress),
      (13 : ℚ)/10 ≤ s.spaced_repetition.ease_factor →
      (13 : ℚ)/10 ≤ (runOps s ops).spaced_repetition.ease_factor := by
  intro ops
  induction ops with
  | nil => exact fun s h => h
  | cons op ops ih =>
    intro s h
    have h1 : (13 : ℚ)/10 ≤ (applyOp s op).spaced_repetition.ease_factor := by
      cases op with
      | attempt c rt ud now => exact recordAttempt_ease_lb s c rt ud now h
      | reset now => norm_num [applyOp, resetProgress]
    simpa [runOps, List.foldl] using ih (applyOp s op) h1

/-- C4: along any sequence of attempts (with any optional difficulty
rating) and resets, the ease factor never drops below 1.3 once it is at
least 1.3 — in particular `Math.max(1.3, ·)` absorbs any number of
consecutive difficulty-5 adjustments of −0.3 — and `resetProgress`
restores it to 2.5. -/
theorem ease_factor_lower_bound :
    (∀ (s : UserWordProgress) (ops : List ProgressOp),
      (13 : ℚ)/10 ≤ s.spaced_repetition.ease_factor →
      (13 : ℚ)/10 ≤ (runOps s ops).spaced_repetition.ease_factor) ∧
    (∀ (s : UserWordProgress) (now : ℤ),
      (resetProgress s now).spaced_repetition.ease_factor = 5/2) :=
  ⟨fun s ops h => ease_lb_runOps ops s h, fun _ _ => rfl⟩

/-- Witness for `ease_factor_lower_bound`: five consecutive
difficulty-5 rated attempts from the fresh state keep the ease factor
at or above 1.3. -/
theorem ease_factor_lower_bound_witness :
    (13 : ℚ)/10 ≤ (runOps freshProgress
      (List.replicate 5 (ProgressOp.attempt true 0 (some 5) 0))).spaced_repetition.ease_factor :=
  ease_factor_lower_bound.1 freshProgress _ (by norm_num [freshProgress])

/-! ## C5: the SM-2 schedule rule and the fresh-word scenario -/

lemma runA1 : runOps freshProgress (List.replicate 1 corrOp) = progA1 := by
  simp only [List.replicate, runOps, List.foldl, applyOp, corrOp, stepA1]

lemma runA2 : runOps freshProgress (List.replicate 2 corrOp) = progA2 := by
  simp only [List.replicate, runOps, List.foldl, applyOp, corrOp, stepA1, stepA2]

lemma runA3 : runOps freshProgress (List.replicate 3 corrOp) = progA3 := by
  simp only [List.replicate, runOps, List.foldl, applyOp, corrOp, stepA1, stepA2, stepA3]

lemma runA4 : runOps freshProgress (List.replicate 4 corrOp) = progA4 := by
  simp only [List.replicate, runOps, List.foldl, applyOp, corrOp, stepA1, stepA2, stepA3, stepA4]

/-- C5: on a correct answer `recordAttempt` follows the SM-2 rule
(repetition 0 → interval 1; repetition 1 → interval 6; otherwise
interval = round(interval × ease_factor), computed with the
pre-adjustment ease factor; repetition is incremented), and a fresh
word answered correctly five times with no difficulty rating runs
through intervals 1, 6, 15, 38, 95 and ends mastered at level 5 with
100% accuracy and a streak of 5. -/
theorem sm2_schedule_spec :
    (∀ (s : UserWordProgress) (rt : ℚ) (ud : Option ℕ) (now : ℤ),
      (recordAttempt s true rt ud now).spaced_repetition.repetition =
        s.spaced_repetition.repetition + 1 ∧
      (recordAttempt s true rt ud now).spaced_repetition.interval =
        (if s.spaced_repetition.repetition = 0 then 1
         else if s.spaced_repetition.repetition = 1 then 6
         else jsRound ((s.spaced_repetition.interval : ℚ) * s.spaced_repetition.ease_factor))) ∧
    ((runOps freshProgress (List.replicate 1 corrOp)).spaced_repetition.interval = 1 ∧
     (runOps freshProgress (List.replicate 2 corrOp)).spaced_repetition.interval = 6 ∧
     (runOps freshProgress (List.replicate 3 corrOp)).spaced_repetition.interval = 15 ∧
     (runOps freshProgress (List.replicate 4 corrOp)).spaced_repetition.interval = 38 ∧
     (runOps freshProgress (List.replicate 5 corrOp)).spaced_repetition.interval = 95 ∧
     (runOps freshProgress (List.replicate 5 corrOp)).mastery_level = 5 ∧
     (runOps freshProgress (List.replicate 5 corrOp)).is_mastered = true ∧
     (runOps freshProgress (List.replicate 5 corrOp)).performance_metrics.accuracy_rate = 100 ∧
     (runOps freshProgress (List.replicate 5 corrOp)).performance_metrics.consecutive_correct
       = 5) := by
  constructor
  · intro s rt ud now
    simp only [recordAttempt_sr_eq]
    unfold updateSpacedRepetition
    cases hud : udTruthy ud <;> simp [hud]
  · rw [runA1, runA2, runA3, runA4, runA5]
    exact ⟨rfl, rfl, rfl, rfl, rfl, rfl, rfl, rfl, rfl⟩

/-! ## C6: `addReview` and automatic resolution -/

/-- A successful `"study"` review at time 0 with the schema-default
response time and confidence. -/
def okReview : ReviewEntry :=
  { review_date := 0, was_successful := true, review_method := "study",
    response_time := 0, confidence_level := 3 }

/-- The scenario record: a fresh wrong word, wrong a second time, then
reviewed successfully three times in a row. -/
def reviewScenario : WrongWordRecord :=
  addReview (addReview (addReview
    (addError (freshWrongWord 0) "" "" "meaning" "" 0)
    true "study" 0 3 0) true "study" 0 3 0) true "study" 0 3 0

/-- C6: `addReview` appends exactly one entry to `review_history`, and
sets `is_resolved := true` with `resolved_date := now` exactly when the
window of the last `min(5, length)` entries of the post-append history
has at least 3 entries with a success fraction ≥ 0.8; otherwise both
fields are unchanged (in particular `addReview` never sets
`is_resolved` to `false`).  The two-errors-then-three-successful-reviews
scenario ends resolved. -/
theorem addReview_resolution_spec :
    (∀ (r : WrongWordRecord) (ws : Bool) (m : String) (rt : ℚ) (cl : ℕ) (now : ℤ),
      (addReview r ws m rt cl now).review_history =
        r.review_history ++ [⟨now, ws, m, rt, cl⟩] ∧
      (if resolutionReady (r.review_history ++ [⟨now, ws, m, rt, cl⟩])
       then (addReview r ws m rt cl now).is_resolved = true ∧
            (addReview r ws m rt cl now).resolved_date = some now
       else (addReview r ws m rt cl now).is_resolved = r.is_resolved ∧
            (addReview r ws m rt cl now).resolved_date = r.resolved_date)) ∧
    (reviewScenario.error_count = 2 ∧
     reviewScenario.review_history.length = 3 ∧
     reviewScenario.is_resolved = true ∧
     reviewScenario.resolved_date = some 0) := by
  constructor
  · intro r ws m rt cl now
    constructor
    · simp only [addReview, checkResolutionStatus]
      split_ifs <;> rfl
    · simp only [addReview, checkResolutionStatus, resolutionReady]
      split_ifs with h1 h2 h3 <;> simp_all
  · refine ⟨?_, ?_, ?_, ?_⟩ <;>
      norm_num [reviewScenario, addReview, checkResolutionStatus, addError,
        addErrorPriority, freshWrongWord, lastN, successCount]

/-! ## C7: `addError` postconditions and priority monotonicity -/

/-- The ceiling `review_priority` can have reached after `addError`
calls, as a function of `error_count`. -/
def prioCap (c : ℕ) : ℕ :=
  if 5 ≤ c then 5 else if 3 ≤ c then 4 else if 2 ≤ c then 3 else 1

lemma addErrorPriority_mono (c p : ℕ) (h : p ≤ prioCap c) :
    p ≤ addErrorPriority (c + 1) p ∧ addErrorPriority (c + 1) p ≤ prioCap (c + 1) := by
  simp only [addErrorPriority, prioCap] at h ⊢
  split_ifs at h ⊢ <;> omega

/-- The record after `n` further `addError` calls on a fresh record
(so with `error_count = n + 1`). -/
def errIter : ℕ → WrongWordRecord
  | 0 => freshWrongWord 0
  | n + 1 => addError (errIter n) "" "" "meaning" "" 0

/-- C7: `addError` increments `error_count`, stamps `last_wrong_date`,
appends one `error_details` entry, recomputes `review_priority` by the
fixed thresholds (≥5 → 5, ≥3 → 4, ≥2 → 3, else unchanged), leaves the
record unresolved (clearing `resolved_date` when it was resolved), and
— from any state where the priority is within the threshold cap of the
error count, as along any chain of `addError` calls from a fresh
record — never decreases the priority; the error-count sequence
1, 2, 3, 5 yields the priority sequence 1, 3, 4, 5. -/
theorem addError_spec :
    (∀ (r : WrongWordRecord) (ua ca et ctx : String) (now : ℤ),
      (addError r ua ca et ctx now).error_count = r.error_count + 1 ∧
      (addError r ua ca et ctx now).last_wrong_date = now ∧
      (addError r ua ca et ctx now).error_details =
        r.error_details ++ [⟨now, ua, ca, et, ctx⟩] ∧
      (addError r ua ca et ctx now).review_priority =
        (if 5 ≤ r.error_count + 1 then 5
         else if 3 ≤ r.error_count + 1 then 4
         else if 2 ≤ r.error_count + 1 then 3
         else r.review_priority) ∧
      (addError r ua ca et ctx now).is_resolved = false ∧
      (addError r ua ca et ctx now).resolved_date =
        (if r.is_resolved then none else r.resolved_date) ∧
      (r.review_priority ≤ prioCap r.error_count →
        r.review_priority ≤ (addError r ua ca et ctx now).review_priority ∧
        (addError r ua ca et ctx now).review_priority ≤
          prioCap (addError r ua ca et ctx now).error_count)) ∧
    ((errIter 0).error_count = 1 ∧ (errIter 0).review_priority = 1 ∧
     (errIter 1).error_count = 2 ∧ (errIter 1).review_priority = 3 ∧
     (errIter 2).error_count = 3 ∧ (errIter 2).review_priority = 4 ∧
     (errIter 4).error_count = 5 ∧ (errIter 4).review_priority = 5) := by
  constructor
  · intro r ua ca et ctx now
    have hcount : (addError r ua ca et ctx now).error_count = r.error_count + 1 := by
      cases h : r.is_resolved <;> simp [addError, h]
    have hprio : (addError r ua ca et ctx now).review_priority =
        (if 5 ≤ r.error_count + 1 then 5
         else if 3 ≤ r.error_count + 1 then 4
         else if 2 ≤ r.error_count + 1 then 3
         else r.review_priority) := by
      cases h : r.is_resolved <;> simp [addError, addErrorPriority, h]
    refine ⟨hcount, ?_, ?_, hprio, ?_, ?_, ?_⟩
    · cases h : r.is_resolved <;> simp [addError, h]
    · cases h : r.is_resolved <;> simp [addError, h]
    · cases h : r.is_resolved <;> simp [addError, h]
    · cases h : r.is_resolved <;> simp [addError, h]
    · intro hcap
      rw [hprio, hcount]
      have hm := addErrorPriority_mono r.error_count r.review_priority hcap
      simpa [addErrorPriority] using hm
  · refine ⟨rfl, rfl, ?_, ?_, ?_, ?_, ?_, ?_⟩ <;> decide

/-- Witness for `addError_spec`: the fresh record satisfies the
priority-cap hypothesis, and its first further error raises the
priority from 1 to 3, within the cap. -/
theorem addError_spec_witness :
    (freshWrongWord 0).review_priority ≤
      (addError (freshWrongWord 0) "" "" "meaning" "" 0).review_priority ∧
    (addError (freshWrongWord 0) "" "" "meaning" "" 0).review_priority ≤
      prioCap (addError (freshWrongWord 0) "" "" "meaning" "" 0).error_count :=
  (addError_spec.1 (freshWrongWord 0) "" "" "meaning" "" 0).2.2.2.2.2.2 (by decide)

/-! ## C8: the urgency-score formula and the aggregation's variant -/

/-- A week-old single-error record with three successful reviews. -/
def urgCexRecord : WrongWordRecord :=
  { freshWrongWord 0 with review_history := [okReview, okReview, okReview] }

/-- C8 counterexample: on a record with `review_priority = 1`,
`error_count = 1`, a last error 7 days ago and three successful
reviews, the virtual `urgency_score` is `0` (the floor) but the
`findByUrgency` aggregation computes `−70` for the same record — the
ranker is not governed by the floored formula. -/
theorem urgency_formula_cex :
    urgencyScore urgCexRecord 604800000 = 0 ∧
    aggUrgencyScore urgCexRecord 604800000 = -70 ∧
    aggUrgencyScore urgCexRecord 604800000 ≠ urgencyScore urgCexRecord 604800000 := by
  have hd : daysSinceLastError urgCexRecord 604800000 = 7 := by decide
  have hp : urgCexRecord.review_priority = 1 := rfl
  have hc : urgCexRecord.error_count = 1 := rfl
  have hr : successfulReviewRate urgCexRecord = 100 := by
    norm_num [successfulReviewRate, urgCexRecord, freshWrongWord, okReview,
      successCount, jsRound]
  have hraw : rawReviewRate urgCexRecord = 100 := by
    norm_num [rawReviewRate, urgCexRecord, freshWrongWord, okReview, successCount]
  have hv : urgencyScore urgCexRecord 604800000 = 0 := by
    simp only [urgencyScore, hd, hp, hc, hr]
    norm_num [max_def]
  have ha : aggUrgencyScore urgCexRecord 604800000 = -70 := by
    simp only [aggUrgencyScore, hd, hp, hc, hraw]
    norm_num [max_def]
  refine ⟨hv, ha, ?_⟩
  rw [hv, ha]
  norm_num

/-- C8 amended: the virtual `urgency_score` equals the weighted formula
floored at 0 and hence is never negative, but `findByUrgency` ranks by
the same weighted sum with the unrounded review rate and no floor. -/
theorem urgency_formula_amended :
    ∀ (r : WrongWordRecord) (now : ℤ),
      urgencyScore r now =
        max 0 ((r.review_priority : ℚ) * 20 + (r.error_count : ℚ) * 10 +
          ((max 0 (7 - daysSinceLastError r now) : ℤ) : ℚ) * 5 - successfulReviewRate r) ∧
      0 ≤ urgencyScore r now ∧
      aggUrgencyScore r now =
        ((r.review_priority : ℚ) * 20 + (r.error_count : ℚ) * 10 +
          ((max 0 (7 - daysSinceLastError r now) : ℤ) : ℚ) * 5) - rawReviewRate r :=
  fun _ _ => ⟨rfl, le_max_left 0 _, rfl⟩

/-! ## C9: what `findByUrgency` returns -/

/-- C9 counterexample: two unresolved records with equal aggregation
urgency scores (30) but different `last_wrong_date` (0 < 5) come out of
`findByUrgency` with the older one first — ties are not broken by most
recent `last_wrong_date`. -/
theorem findByUrgency_tiebreak_cex :
    aggUrgencyScore (freshWrongWord 0) 864000000 =
      aggUrgencyScore (freshWrongWord 5) 864000000 ∧
    (freshWrongWord 0).last_wrong_date < (freshWrongWord 5).last_wrong_date ∧
    (findByUrgency [freshWrongWord 0, freshWrongWord 5] 864000000 10).map
      (fun r => r.last_wrong_date) = [0, 5] := by
  have h0 : aggUrgencyScore (freshWrongWord 0) 864000000 = 30 := by
    have hd : daysSinceLastError (freshWrongWord 0) 864000000 = 10 := by decide
    have hraw : rawReviewRate (freshWrongWord 0) = 0 := rfl
    simp only [aggUrgencyScore, hd, hraw]
    norm_num [freshWrongWord, max_def]
  have h5 : aggUrgencyScore (freshWrongWord 5) 864000000 = 30 := by
    have hd : daysSinceLastError (freshWrongWord 5) 864000000 = 9 := by decide
    have hraw : rawReviewRate (freshWrongWord 5) = 0 := rfl
    simp only [aggUrgencyScore, hd, hraw]
    norm_num [freshWrongWord, max_def]
  have i0 : (freshWrongWord 0).is_resolved = false := rfl
  have i5 : (freshWrongWord 5).is_resolved = false := rfl
  have d0 : (freshWrongWord 0).last_wrong_date = 0 := rfl
  have d5 : (freshWrongWord 5).last_wrong_date = 5 := rfl
  refine ⟨by rw [h0, h5], by decide, ?_⟩
  norm_num [findByUrgency, List.insertionSort, List.orderedInsert, h0, h5, i0, i5, d0, d5]

/-- C9 amended: `findByUrgency` returns only unresolved input records,
at most `limit` of them, sorted by the aggregation urgency score in
descending order; no secondary ordering is applied. -/
theorem findByUrgency_spec_amended :
    ∀ (records : List WrongWordRecord) (now : ℤ) (limit : ℕ),
      (∀ r ∈ findByUrgency records now limit, r.is_resolved = false ∧ r ∈ records) ∧
      (findByUrgency records now limit).length ≤ limit ∧
      (findByUrgency records now limit).Sorted
        (fun a b => aggUrgencyScore b now ≤ aggUrgencyScore a now) := by
  intro records now limit
  haveI : IsTotal WrongWordRecord
      (fun a b => aggUrgencyScore b now ≤ aggUrgencyScore a now) :=
    ⟨fun _ _ => le_total _ _⟩
  haveI : IsTrans WrongWordRecord
      (fun a b => aggUrgencyScore b now ≤ aggUrgencyScore a now) :=
    ⟨fun _ _ _ hab hbc => le_trans hbc hab⟩
  refine ⟨?_, ?_, ?_⟩
  · intro r hr
    have h1 : r ∈ List.insertionSort
        (fun a b => aggUrgencyScore b now ≤ aggUrgencyScore a now)
        (records.filter (fun x => !x.is_resolved)) :=
      List.mem_of_mem_take hr
    have h2 : r ∈ records.filter (fun x => !x.is_resolved) :=
      (List.perm_insertionSort _ _).subset h1
    have h3 := List.mem_filter.mp h2
    exact ⟨by simpa using h3.2, h3.1⟩
  · exact List.length_take_le _ _
  · exact List.Pairwise.sublist (List.take_sublist _ _) (List.sorted_insertionSort _ _)

/-- Witness for `findByUrgency_spec_amended`: a singleton input. -/
theorem findByUrgency_spec_amended_witness :
    (freshWrongWord 0).is_resolved = false ∧ freshWrongWord 0 ∈ [freshWrongWord 0] :=
  (findByUrgency_spec_amended [freshWrongWord 0] 0 1).1 (freshWrongWord 0) (by decide)

/-! ## C10: the frame of `addReview` -/

/-- C10: `addReview` leaves `error_count`, `review_priority`,
`last_wrong_date`, `first_wrong_date`, `error_details` and
`learning_notes` unchanged; only `review_history`, `is_resolved` and
`resolved_date` can change. -/
theorem addReview_frame :
    ∀ (r : WrongWordRecord) (ws : Bool) (m : String) (rt : ℚ) (cl : ℕ) (now : ℤ),
      (addReview r ws m rt cl now).error_count = r.error_count ∧
      (addReview r ws m rt cl now).review_priority = r.review_priority ∧
      (addReview r ws m rt cl now).last_wrong_date = r.last_wrong_date ∧
      (addReview r ws m rt cl now).first_wrong_date = r.first_wrong_date ∧
      (addReview r ws m rt cl now).error_details = r.error_details ∧
      (addReview r ws m rt cl now).learning_notes = r.learning_notes := by
  intro r ws m rt cl now
  simp only [addReview, checkResolutionStatus]
  split_ifs <;> exact ⟨rfl, rfl, rfl, rfl, rfl, rfl⟩
